import Mathlib

/-!
# Verification of the RTT-based device-activity tracker

Shallow embedding of `src/src/tracker.ts` (class `WhatsAppTracker`).

Modelling conventions:
* JavaScript numbers holding timestamps and RTTs are integers in the source
  (`Date.now()` differences), modelled as `ℕ`.  Derived statistics
  (moving average, median, threshold) are JavaScript doubles on exact
  decimal inputs; they are modelled as exact rationals `ℚ`, with the
  literal `0.8` modelled as `4 / 5`.
* `Map<string, _>` objects (`deviceMetrics`, `probeStartTimes`,
  `probeTimeouts`) are association lists in insertion order; `Map.set`
  overwrites in place or appends at the end, `Map.delete` removes,
  matching JavaScript `Map` iteration-order semantics.
* Device state is kept as the literal strings the source assigns:
  `"Calibrating..."`, `"An (Online)"`, `"Standby"`, `"OFFLINE"`.
* The `NodeJS.Timeout` values stored in `probeTimeouts` are modelled by
  the key set of the association list (a timer exists for a message id
  iff the id is a key); `clearTimeout` plus `delete` is modelled by
  erasing the key.
* `sendUpdate` only reads state and invokes the external `onUpdate`
  callback; it changes no tracker state, so the state-transition
  functions below omit it.
* Array `sort` with comparator `(a, b) => a - b` sorts ascending; it is
  modelled by `List.insertionSort (· ≤ ·)` (any two ascending-sorted
  permutations of a numeric list are equal, so the choice of sorting
  algorithm is immaterial).
-/

/-- The push-then-shift pattern used for each bounded buffer in
`addMeasurementForDevice`: `buf.push(v); if (buf.length > cap) buf.shift();`. -/
def pushBounded (cap : ℕ) (buf : List ℕ) (v : ℕ) : List ℕ :=
  let b := buf ++ [v]
  if cap < b.length then b.drop 1 else b

/-- `Map.get`, on an insertion-ordered association list. -/
def lookupKey {α : Type} : List (String × α) → String → Option α
  | [], _ => none
  | (k', v) :: rest, k => if k' = k then some v else lookupKey rest k

/-- `Map.set`: overwrite in place if the key exists, else append at the end. -/
def insertKey {α : Type} : List (String × α) → String → α → List (String × α)
  | [], k, v => [(k, v)]
  | (k', v') :: rest, k, v =>
      if k' = k then (k, v) :: rest else (k', v') :: insertKey rest k v

/-- `Map.delete`: remove the entry for a key (keys are unique by construction). -/
def eraseKey {α : Type} : List (String × α) → String → List (String × α)
  | [], _ => []
  | (k', v') :: rest, k =>
      if k' = k then rest else (k', v') :: eraseKey rest k

/-- Per-device metrics (`interface DeviceMetrics` in the source). -/
structure DeviceMetrics where
  rttHistory : List ℕ
  recentRtts : List ℕ
  state : String
  lastRtt : ℕ
  lastUpdate : ℕ
deriving DecidableEq

/-- The mutable fields of class `WhatsAppTracker` that the claims concern.
(`sock`, `targetJid`, `trackedJids`, `lastPresence`, `onUpdate` play no
role in the measurement pipeline and are omitted.) -/
structure TrackerState where
  deviceMetrics : List (String × DeviceMetrics)
  globalRttHistory : List ℕ
  probeStartTimes : List (String × ℕ)
  probeTimeouts : List (String × ℕ)
  isTracking : Bool
deriving DecidableEq

/-- Field initializers of `WhatsAppTracker` (empty maps and histories),
with tracking already started (`startTracking` sets `isTracking = true`). -/
def initialState : TrackerState :=
  { deviceMetrics := []
    globalRttHistory := []
    probeStartTimes := []
    probeTimeouts := []
    isTracking := true }

/-- `calculateGlobalMedian()` (source lines 339-345): `0` below the
3-sample floor, else the median of an ascending-sorted copy. -/
def calculateGlobalMedian (hist : List ℕ) : ℚ :=
  if hist.length < 3 then 0
  else
    let sorted := List.insertionSort (· ≤ ·) hist
    let mid := sorted.length / 2
    if sorted.length % 2 ≠ 0 then (sorted.getD mid 0 : ℚ)
    else ((sorted.getD (mid - 1) 0 : ℚ) + (sorted.getD mid 0 : ℚ)) / 2

/-- The method form of `calculateGlobalMedian`: a read of
`this.globalRttHistory` that sorts a spread copy, returning the median and
leaving the tracker state untouched. -/
def calculateGlobalMedianOp (s : TrackerState) : ℚ × TrackerState :=
  (calculateGlobalMedian s.globalRttHistory, s)

/-- Arithmetic mean of a device's moving-average buffer, as computed by
`metrics.recentRtts.reduce((a, b) => a + b, 0) / metrics.recentRtts.length`. -/
def movingAvgOf (m : DeviceMetrics) : ℚ :=
  (m.recentRtts.sum : ℚ) / (m.recentRtts.length : ℚ)

/-- `determineDeviceState` (source lines 265-301) acting on one device's
metrics, given the shared `globalRttHistory`.  The population median is
inlined in the source exactly as in `calculateGlobalMedian`. -/
def determineDeviceState (global : List ℕ) (m : DeviceMetrics) : DeviceMetrics :=
  if m.state = "OFFLINE" ∧ 5000 < m.lastRtt then m
  else
    let movingAvg := movingAvgOf m
    if 3 ≤ global.length then
      let sorted := List.insertionSort (· ≤ ·) global
      let mid := sorted.length / 2
      let median : ℚ :=
        if sorted.length % 2 ≠ 0 then (sorted.getD mid 0 : ℚ)
        else ((sorted.getD (mid - 1) 0 : ℚ) + (sorted.getD mid 0 : ℚ)) / 2
      let threshold := median * (4 / 5)
      if movingAvg < threshold then { m with state := "An (Online)" }
      else { m with state := "Standby" }
    else { m with state := "Calibrating..." }

/-- `this.determineDeviceState(jid)`: update the stored metrics of `jid`
(the method returns immediately when the device is unknown). -/
def determineDeviceStateOp (s : TrackerState) (jid : String) : TrackerState :=
  match lookupKey s.deviceMetrics jid with
  | none => s
  | some m =>
      { s with deviceMetrics :=
          insertKey s.deviceMetrics jid (determineDeviceState s.globalRttHistory m) }

/-- `addMeasurementForDevice` (source lines 215-259).  A missing device is
first initialized with empty buffers, state `"Calibrating..."` and
`lastRtt = rtt`; then the in-range branch (`rtt <= 5000`) pushes into the
three bounded buffers and sets `lastRtt`, while the out-of-range branch
records only `lastRtt` and forces `"OFFLINE"`; `lastUpdate` is set
unconditionally and `determineDeviceState` runs at the end.
(`sendUpdate` is also called, but mutates nothing.) -/
def addMeasurementForDevice (s : TrackerState) (jid : String) (rtt now : ℕ) :
    TrackerState :=
  let m := (lookupKey s.deviceMetrics jid).getD
    { rttHistory := [], recentRtts := [], state := "Calibrating..."
      lastRtt := rtt, lastUpdate := now }
  if rtt ≤ 5000 then
    let m1 : DeviceMetrics :=
      { m with recentRtts := pushBounded 3 m.recentRtts rtt
               rttHistory := pushBounded 2000 m.rttHistory rtt
               lastRtt := rtt, lastUpdate := now }
    let s1 : TrackerState :=
      { s with deviceMetrics := insertKey s.deviceMetrics jid m1
               globalRttHistory := pushBounded 2000 s.globalRttHistory rtt }
    determineDeviceStateOp s1 jid
  else
    let m1 : DeviceMetrics :=
      { m with lastRtt := rtt, state := "OFFLINE", lastUpdate := now }
    let s1 : TrackerState :=
      { s with deviceMetrics := insertKey s.deviceMetrics jid m1 }
    determineDeviceStateOp s1 jid

/-- `analyzeUpdate` (source lines 167-196).  `msgId` and `fromJid` are
required truthy (the empty string is falsy in JavaScript); only status 3
(CLIENT/DELIVERY ACK) is processed.  On a pending match the elapsed RTT is
`now - startTime`, the timeout entry and the pending entry are removed,
and the sample flows to `addMeasurementForDevice`; otherwise nothing
changes. -/
def analyzeUpdate (s : TrackerState) (msgId fromJid : String) (status : ℕ)
    (now : ℕ) : TrackerState :=
  if msgId = "" ∨ fromJid = "" then s
  else if status = 3 then
    match lookupKey s.probeStartTimes msgId with
    | some startTime =>
        let rtt := now - startTime
        let s1 : TrackerState :=
          { s with probeTimeouts := eraseKey s.probeTimeouts msgId
                   probeStartTimes := eraseKey s.probeStartTimes msgId }
        addMeasurementForDevice s1 fromJid rtt now
    | none => s
  else s

/-- The state effect of `sendProbe` (source lines 125-161): when the
transport send returns a message id (`result?.key?.id`), the send
timestamp is registered in `probeStartTimes`.  No other tracker state is
touched — in particular the source registers no entry in `probeTimeouts`
and calls no `setTimeout` here. -/
def sendProbe (s : TrackerState) (resultId : Option String) (now : ℕ) :
    TrackerState :=
  match resultId with
  | some id => { s with probeStartTimes := insertKey s.probeStartTimes id now }
  | none => s

/-- One iteration of `probeLoop` (source lines 109-119): the loop guard
reads `isTracking` before each send; a stopped tracker sends nothing. -/
def probeLoopStep (s : TrackerState) (resultId : Option String) (now : ℕ) :
    TrackerState :=
  if s.isTracking then sendProbe s resultId now else s

/-- `stopTracking` (source lines 362-373): clear the flag, `clearTimeout`
every stored timer and empty both probe maps, all synchronously. -/
def stopTracking (s : TrackerState) : TrackerState :=
  { s with isTracking := false, probeTimeouts := [], probeStartTimes := [] }

/-- External events driving the tracker: a correlated RTT sample delivered
to `addMeasurementForDevice`, a `messages.update` event, a probe send, and
`stopTracking`. -/
inductive TrackerEvent where
  | measure (jid : String) (rtt : ℕ) (now : ℕ)
  | update (msgId fromJid : String) (status : ℕ) (now : ℕ)
  | probe (resultId : Option String) (now : ℕ)
  | stop
deriving DecidableEq

/-- Interpretation of one event. -/
def step (s : TrackerState) (e : TrackerEvent) : TrackerState :=
  match e with
  | TrackerEvent.measure jid rtt now => addMeasurementForDevice s jid rtt now
  | TrackerEvent.update msgId fromJid status now =>
      analyzeUpdate s msgId fromJid status now
  | TrackerEvent.probe resultId now => probeLoopStep s resultId now
  | TrackerEvent.stop => stopTracking s

/-- Run a sequence of events from the freshly started tracker. -/
def runEvents (es : List TrackerEvent) : TrackerState :=
  es.foldl step initialState

/-- The moving-average buffer stored for `jid` (empty when the device is
unknown). -/
def devRecent (s : TrackerState) (jid : String) : List ℕ :=
  ((lookupKey s.deviceMetrics jid).map DeviceMetrics.recentRtts).getD []

/-- The history buffer stored for `jid` (empty when the device is
unknown). -/
def devHistory (s : TrackerState) (jid : String) : List ℕ :=
  ((lookupKey s.deviceMetrics jid).map DeviceMetrics.rttHistory).getD []

/-- The classification string stored for `jid` (the initializer value
`"Calibrating..."` when the device is unknown). -/
def devState (s : TrackerState) (jid : String) : String :=
  ((lookupKey s.deviceMetrics jid).map DeviceMetrics.state).getD "Calibrating..."

/-- The four classification strings the source ever stores. -/
def StateOK (st : String) : Prop :=
  st = "Calibrating..." ∨ st = "An (Online)" ∨ st = "Standby" ∨ st = "OFFLINE"

/-- Safety condition for one device record: either its moving-average
buffer holds a sample, or it sits behind the sticky-Offline guard. -/
def MetricsInv (m : DeviceMetrics) : Prop :=
  m.recentRtts ≠ [] ∨ (m.state = "OFFLINE" ∧ 5000 < m.lastRtt)

/-- Every stored device record satisfies `MetricsInv` and carries one of
the four classification strings. -/
def DevicesInv (s : TrackerState) : Prop :=
  ∀ jid m, lookupKey s.deviceMetrics jid = some m →
    MetricsInv m ∧ StateOK m.state

/-- Middle-of-a-sorted-snapshot value named by the spec ("average of the
two middle elements for even length, exact middle element for odd
length"). -/
def specMiddle (sorted : List ℕ) : ℚ :=
  if sorted.length % 2 ≠ 0 then (sorted.getD (sorted.length / 2) 0 : ℚ)
  else ((sorted.getD (sorted.length / 2 - 1) 0 : ℚ) +
        (sorted.getD (sorted.length / 2) 0 : ℚ)) / 2

/-! ## Helper lemmas: association lists -/

theorem lookupKey_insertKey_self {α : Type} (l : List (String × α)) (k : String)
    (v : α) : lookupKey (insertKey l k v) k = some v := by
  induction l with
  | nil => simp [insertKey, lookupKey]
  | cons p rest ih =>
      obtain ⟨k', v'⟩ := p
      by_cases h : k' = k
      · simp [insertKey, h, lookupKey]
      · simp [insertKey, h, lookupKey, ih]

theorem lookupKey_insertKey_ne {α : Type} (l : List (String × α)) (k j : String)
    (v : α) (hne : j ≠ k) :
    lookupKey (insertKey l k v) j = lookupKey l j := by
  have hkj : ¬k = j := fun h => hne h.symm
  induction l with
  | nil => simp [insertKey, lookupKey, hkj]
  | cons p rest ih =>
      obtain ⟨k', v'⟩ := p
      by_cases h : k' = k
      · subst h
        simp [insertKey, lookupKey, hkj]
      · simp only [insertKey, if_neg h, lookupKey]
        by_cases h2 : k' = j
        · simp [h2]
        · simp [h2, ih]

/-- Any successful lookup in `insertKey l k v` is either the new binding or
an old one. -/
theorem lookupKey_insertKey_cases {α : Type} (l : List (String × α))
    (k j : String) (v w : α) (h : lookupKey (insertKey l k v) j = some w) :
    (j = k ∧ w = v) ∨ lookupKey l j = some w := by
  by_cases hj : j = k
  · subst hj
    rw [lookupKey_insertKey_self] at h
    exact Or.inl ⟨rfl, (Option.some_inj.mp h).symm⟩
  · rw [lookupKey_insertKey_ne l k j v hj] at h
    exact Or.inr h

theorem lookupKey_eraseKey_self {α : Type} (l : List (String × α)) (k : String)
    (hu : (l.map Prod.fst).Nodup) : lookupKey (eraseKey l k) k = none := by
  induction l with
  | nil => simp [eraseKey, lookupKey]
  | cons p rest ih =>
      obtain ⟨k', v'⟩ := p
      simp only [List.map_cons, List.nodup_cons] at hu
      by_cases h : k' = k
      · subst h
        simp only [eraseKey, if_pos rfl]
        -- `k'` does not occur in `rest`, so the lookup fails
        clear ih
        induction rest with
        | nil => simp [lookupKey]
        | cons q rs ih2 =>
            obtain ⟨kq, vq⟩ := q
            simp only [List.map_cons, List.mem_cons, List.nodup_cons] at hu
            have hkq : kq ≠ k' := fun h => hu.1 (Or.inl h.symm)
            simp only [lookupKey, if_neg hkq]
            exact ih2 ⟨fun h => hu.1 (Or.inr h), hu.2.2⟩
      · simp [eraseKey, h, lookupKey, ih hu.2]

/-! ## Helper lemmas: bounded buffers -/

theorem pushBounded_ne_nil (cap : ℕ) (buf : List ℕ) (v : ℕ) (hcap : 1 ≤ cap) :
    pushBounded cap buf v ≠ [] := by
  simp only [pushBounded]
  split
  next hc =>
    intro h
    have h2 := congrArg List.length h
    simp only [List.length_drop, List.length_append, List.length_cons,
      List.length_nil] at h2 hc
    omega
  next hc =>
    intro h
    have h2 := congrArg List.length h
    simp only [List.length_append, List.length_cons, List.length_nil] at h2
    omega

theorem length_pushBounded_le (cap : ℕ) (buf : List ℕ) (v : ℕ)
    (h : buf.length ≤ cap) : (pushBounded cap buf v).length ≤ cap := by
  simp only [pushBounded]
  split
  all_goals
    simp only [List.length_drop, List.length_append, List.length_cons,
      List.length_nil] at *
    omega

/-- Folding the push-then-shift pattern over a stream keeps exactly the
most recent `cap` values, in insertion order. -/
theorem foldl_pushBounded (cap : ℕ) :
    ∀ (vs init : List ℕ), init.length ≤ cap →
      List.foldl (pushBounded cap) init vs =
        (init ++ vs).drop (init.length + vs.length - cap)
  | [], init, h => by
      simp [Nat.sub_eq_zero_of_le, h]
  | v :: rest, init, h => by
      rw [List.foldl_cons]
      by_cases hc : init.length < cap
      · have h1 : pushBounded cap init v = init ++ [v] := by
          simp only [pushBounded]
          rw [if_neg (by simp only [List.length_append, List.length_cons,
            List.length_nil]; omega)]
        rw [h1, foldl_pushBounded cap rest (init ++ [v])
          (by simp only [List.length_append, List.length_cons,
            List.length_nil]; omega)]
        simp only [List.append_assoc, List.singleton_append,
          List.length_append, List.length_cons, List.length_nil]
        congr 1
        omega
      · have hlen : init.length = cap := le_antisymm h (not_lt.mp hc)
        have h1 : pushBounded cap init v = (init ++ [v]).drop 1 := by
          simp only [pushBounded]
          rw [if_pos (by simp only [List.length_append, List.length_cons,
            List.length_nil]; omega)]
        rw [h1, foldl_pushBounded cap rest ((init ++ [v]).drop 1)
          (by simp only [List.length_drop, List.length_append,
            List.length_cons, List.length_nil]; omega)]
        rw [← List.drop_append_of_le_length
          (by simp only [List.length_append, List.length_cons,
            List.length_nil]; omega)]
        rw [List.drop_drop]
        simp only [List.append_assoc, List.singleton_append,
          List.length_drop, List.length_append, List.length_cons,
          List.length_nil]
        congr 1
        omega

/-! ## Helper lemmas: classification and measurement -/

theorem determineDeviceState_recentRtts (g : List ℕ) (m : DeviceMetrics) :
    (determineDeviceState g m).recentRtts = m.recentRtts := by
  simp only [determineDeviceState]
  split
  · rfl
  · split
    · split <;> split <;> rfl
    · rfl

theorem determineDeviceState_rttHistory (g : List ℕ) (m : DeviceMetrics) :
    (determineDeviceState g m).rttHistory = m.rttHistory := by
  simp only [determineDeviceState]
  split
  · rfl
  · split
    · split <;> split <;> rfl
    · rfl

theorem determineDeviceState_lastRtt (g : List ℕ) (m : DeviceMetrics) :
    (determineDeviceState g m).lastRtt = m.lastRtt := by
  simp only [determineDeviceState]
  split
  · rfl
  · split
    · split <;> split <;> rfl
    · rfl

theorem determineDeviceState_lastUpdate (g : List ℕ) (m : DeviceMetrics) :
    (determineDeviceState g m).lastUpdate = m.lastUpdate := by
  simp only [determineDeviceState]
  split
  · rfl
  · split
    · split <;> split <;> rfl
    · rfl

/-- The sticky-Offline early return of `determineDeviceState`. -/
theorem determineDeviceState_sticky (g : List ℕ) (m : DeviceMetrics)
    (h1 : m.state = "OFFLINE") (h2 : 5000 < m.lastRtt) :
    determineDeviceState g m = m := by
  simp only [determineDeviceState, if_pos (And.intro h1 h2)]

/-- After an in-range sample, the stored metrics of the device are the
pushed buffers run through `determineDeviceState` against the updated
population history. -/
theorem lookup_addMeasurement_inrange (s : TrackerState) (jid : String)
    (rtt now : ℕ) (h : rtt ≤ 5000) :
    lookupKey (addMeasurementForDevice s jid rtt now).deviceMetrics jid =
      some (determineDeviceState (pushBounded 2000 s.globalRttHistory rtt)
        { rttHistory := pushBounded 2000 (devHistory s jid) rtt
          recentRtts := pushBounded 3 (devRecent s jid) rtt
          state := devState s jid
          lastRtt := rtt, lastUpdate := now }) := by
  simp only [addMeasurementForDevice, if_pos h, determineDeviceStateOp,
    lookupKey_insertKey_self]
  cases hl : lookupKey s.deviceMetrics jid <;>
    simp [hl, devHistory, devRecent, devState, lookupKey_insertKey_self]

/-- After an out-of-range sample, the stored metrics keep their buffers
and are forced to `"OFFLINE"` (the subsequent `determineDeviceState` call
returns early through the sticky guard). -/
theorem lookup_addMeasurement_outrange (s : TrackerState) (jid : String)
    (rtt now : ℕ) (h : 5000 < rtt) :
    lookupKey (addMeasurementForDevice s jid rtt now).deviceMetrics jid =
      some { rttHistory := devHistory s jid
             recentRtts := devRecent s jid
             state := "OFFLINE"
             lastRtt := rtt, lastUpdate := now } := by
  have hns : ¬rtt ≤ 5000 := by omega
  simp only [addMeasurementForDevice, if_neg hns, determineDeviceStateOp,
    lookupKey_insertKey_self]
  cases hl : lookupKey s.deviceMetrics jid <;>
    simp only [hl, devHistory, devRecent, Option.map_none, Option.map_some,
      Option.getD_none, Option.getD_some, lookupKey_insertKey_self,
      Option.some_inj] <;>
    exact determineDeviceState_sticky _ _ rfl h

/-- The population history is extended by an in-range sample. -/
theorem addMeasurement_global_inrange (s : TrackerState) (jid : String)
    (rtt now : ℕ) (h : rtt ≤ 5000) :
    (addMeasurementForDevice s jid rtt now).globalRttHistory =
      pushBounded 2000 s.globalRttHistory rtt := by
  simp only [addMeasurementForDevice, if_pos h, determineDeviceStateOp,
    lookupKey_insertKey_self]

/-- The population history ignores an out-of-range sample. -/
theorem addMeasurement_global_outrange (s : TrackerState) (jid : String)
    (rtt now : ℕ) (h : 5000 < rtt) :
    (addMeasurementForDevice s jid rtt now).globalRttHistory =
      s.globalRttHistory := by
  have hns : ¬rtt ≤ 5000 := by omega
  simp only [addMeasurementForDevice, if_neg hns, determineDeviceStateOp,
    lookupKey_insertKey_self]

/-- `addMeasurementForDevice` touches neither probe map nor the tracking
flag. -/
theorem addMeasurement_probes (s : TrackerState) (jid : String)
    (rtt now : ℕ) :
    (addMeasurementForDevice s jid rtt now).probeStartTimes =
        s.probeStartTimes ∧
      (addMeasurementForDevice s jid rtt now).probeTimeouts =
        s.probeTimeouts ∧
      (addMeasurementForDevice s jid rtt now).isTracking = s.isTracking := by
  simp only [addMeasurementForDevice, determineDeviceStateOp]
  split <;> simp [lookupKey_insertKey_self]

/-- Devices other than the measured one keep their metrics. -/
theorem lookup_addMeasurement_ne (s : TrackerState) (jid j : String)
    (rtt now : ℕ) (hne : j ≠ jid) :
    lookupKey (addMeasurementForDevice s jid rtt now).deviceMetrics j =
      lookupKey s.deviceMetrics j := by
  simp only [addMeasurementForDevice, determineDeviceStateOp]
  split <;>
    simp [lookupKey_insertKey_self, lookupKey_insertKey_ne _ _ _ _ hne]

theorem determineDeviceState_state_ok (g : List ℕ) (m : DeviceMetrics)
    (h : StateOK m.state) : StateOK (determineDeviceState g m).state := by
  simp only [determineDeviceState]
  split
  · exact h
  · split
    · split <;> split
      · exact Or.inr (Or.inl rfl)
      · exact Or.inr (Or.inr (Or.inl rfl))
      · exact Or.inr (Or.inl rfl)
      · exact Or.inr (Or.inr (Or.inl rfl))
    · exact Or.inl rfl

/-- The state recomputed after a sample whose `lastRtt` is in range is
never the Offline string. -/
theorem determineDeviceState_state_ne_offline (g : List ℕ)
    (m : DeviceMetrics) (h : m.lastRtt ≤ 5000) :
    (determineDeviceState g m).state ≠ "OFFLINE" := by
  simp only [determineDeviceState]
  split
  next hs => exact fun _ => (by omega : False)
  next =>
    split
    · split <;> split
      · exact (by decide : ¬("An (Online)" = "OFFLINE"))
      · exact (by decide : ¬("Standby" = "OFFLINE"))
      · exact (by decide : ¬("An (Online)" = "OFFLINE"))
      · exact (by decide : ¬("Standby" = "OFFLINE"))
    · exact (by decide : ¬("Calibrating..." = "OFFLINE"))

/-! ## Helper lemmas: the reachable-state invariant -/

theorem devicesInv_addMeasurement (s : TrackerState) (jid : String)
    (rtt now : ℕ) (hs : DevicesInv s) :
    DevicesInv (addMeasurementForDevice s jid rtt now) := by
  intro j m hm
  by_cases hj : j = jid
  · subst hj
    by_cases hr : rtt ≤ 5000
    · rw [lookup_addMeasurement_inrange s j rtt now hr] at hm
      obtain rfl := Option.some_inj.mp hm
      constructor
      · exact Or.inl (by
          rw [determineDeviceState_recentRtts]
          exact pushBounded_ne_nil 3 _ _ (by omega))
      · apply determineDeviceState_state_ok
        show StateOK (devState s j)
        unfold devState
        cases hl : lookupKey s.deviceMetrics j with
        | none => exact Or.inl rfl
        | some m0 => simpa using (hs j m0 hl).2
    · rw [lookup_addMeasurement_outrange s j rtt now (by omega)] at hm
      obtain rfl := Option.some_inj.mp hm
      exact ⟨Or.inr ⟨rfl, show 5000 < rtt by omega⟩,
        Or.inr (Or.inr (Or.inr rfl))⟩
  · rw [lookup_addMeasurement_ne s jid j rtt now hj] at hm
    exact hs j m hm

theorem devicesInv_of_same_metrics (s t : TrackerState)
    (h : t.deviceMetrics = s.deviceMetrics) (hs : DevicesInv s) :
    DevicesInv t := by
  intro j m hm
  rw [h] at hm
  exact hs j m hm

theorem devicesInv_analyzeUpdate (s : TrackerState) (msgId fromJid : String)
    (status now : ℕ) (hs : DevicesInv s) :
    DevicesInv (analyzeUpdate s msgId fromJid status now) := by
  unfold analyzeUpdate
  split
  · exact hs
  · split
    · split
      · apply devicesInv_addMeasurement
        exact devicesInv_of_same_metrics s _ rfl hs
      · exact hs
    · exact hs

theorem devicesInv_step (s : TrackerState) (e : TrackerEvent)
    (hs : DevicesInv s) : DevicesInv (step s e) := by
  cases e with
  | measure jid rtt now => exact devicesInv_addMeasurement s jid rtt now hs
  | update msgId fromJid status now =>
      exact devicesInv_analyzeUpdate s msgId fromJid status now hs
  | probe resultId now =>
      simp only [step, probeLoopStep, sendProbe]
      split
      · split
        · exact devicesInv_of_same_metrics s _ rfl hs
        · exact hs
      · exact hs
  | stop => exact devicesInv_of_same_metrics s _ rfl hs

theorem devicesInv_runEvents (es : List TrackerEvent) :
    DevicesInv (runEvents es) := by
  unfold runEvents
  have h0 : DevicesInv initialState := by
    intro j m hm
    simp [initialState, lookupKey] at hm
  generalize initialState = s at h0 ⊢
  induction es generalizing s with
  | nil => exact h0
  | cons e rest ih =>
      rw [List.foldl_cons]
      exact ih (step s e) (devicesInv_step s e h0)

/-! ## Helper lemmas: a run of in-range samples -/

/-- Feeding a stream of in-range samples for one device folds the
push-then-shift pattern over all three buffers. -/
theorem run_measures_buffers (jid : String) :
    ∀ (rtts : List ℕ) (s : TrackerState), (∀ r ∈ rtts, r ≤ 5000) →
      devRecent (rtts.foldl (fun t r => addMeasurementForDevice t jid r 0) s)
          jid =
        List.foldl (pushBounded 3) (devRecent s jid) rtts ∧
      devHistory (rtts.foldl (fun t r => addMeasurementForDevice t jid r 0) s)
          jid =
        List.foldl (pushBounded 2000) (devHistory s jid) rtts ∧
      (rtts.foldl (fun t r => addMeasurementForDevice t jid r 0)
          s).globalRttHistory =
        List.foldl (pushBounded 2000) s.globalRttHistory rtts
  | [], s, _ => ⟨rfl, rfl, rfl⟩
  | r :: rest, s, h => by
      have hr : r ≤ 5000 := h r (List.mem_cons_self r rest)
      have hrest : ∀ x ∈ rest, x ≤ 5000 := fun x hx =>
        h x (List.mem_cons_of_mem r hx)
      have ih := run_measures_buffers jid rest
        (addMeasurementForDevice s jid r 0) hrest
      have h1 : devRecent (addMeasurementForDevice s jid r 0) jid =
          pushBounded 3 (devRecent s jid) r := by
        simp [devRecent, lookup_addMeasurement_inrange s jid r 0 hr,
          determineDeviceState_recentRtts]
      have h2 : devHistory (addMeasurementForDevice s jid r 0) jid =
          pushBounded 2000 (devHistory s jid) r := by
        simp [devHistory, lookup_addMeasurement_inrange s jid r 0 hr,
          determineDeviceState_rttHistory]
      have h3 := addMeasurement_global_inrange s jid r 0 hr
      simp only [List.foldl_cons]
      exact ⟨by rw [ih.1, h1], by rw [ih.2.1, h2], by rw [ih.2.2, h3]⟩

/-! ## Helper lemmas: correlation -/

/-- A matched delivery acknowledgment: elapsed time is the difference of
timestamps, both probe maps drop the message id, and the sample flows to
`addMeasurementForDevice`. -/
theorem analyzeUpdate_match (s : TrackerState) (msgId fromJid : String)
    (t0 t1 : ℕ) (hm : msgId ≠ "") (hf : fromJid ≠ "")
    (hp : lookupKey s.probeStartTimes msgId = some t0) :
    analyzeUpdate s msgId fromJid 3 t1 =
      addMeasurementForDevice
        { s with probeTimeouts := eraseKey s.probeTimeouts msgId
                 probeStartTimes := eraseKey s.probeStartTimes msgId }
        fromJid (t1 - t0) t1 := by
  simp only [analyzeUpdate, hm, hf, hp, if_neg, or_self, ite_false, if_pos rfl]
  simp [hm, hf]

/-- An acknowledgment whose id has no pending entry changes nothing. -/
theorem analyzeUpdate_nomatch (s : TrackerState) (msgId fromJid : String)
    (status t1 : ℕ) (hp : lookupKey s.probeStartTimes msgId = none) :
    analyzeUpdate s msgId fromJid status t1 = s := by
  simp only [analyzeUpdate]
  split
  · rfl
  · split
    · rw [hp]
    · rfl

/-! ## Claim theorems -/

/-- **C1.** For every correlated RTT sample with `rtt > 5000` delivered to
`addMeasurementForDevice`, the device's state is set to Offline and the
sample is recorded only in `lastRtt` and `lastUpdate`: it is appended to
neither the device's 3-slot moving-average buffer, nor its 2000-slot
history buffer, nor the shared population buffer. -/
theorem offline_sample_recorded_only_in_lastRtt (s : TrackerState)
    (jid : String) (rtt now : ℕ) (h : 5000 < rtt) :
    lookupKey (addMeasurementForDevice s jid rtt now).deviceMetrics jid =
      some { rttHistory := devHistory s jid
             recentRtts := devRecent s jid
             state := "OFFLINE"
             lastRtt := rtt
             lastUpdate := now } ∧
    (addMeasurementForDevice s jid rtt now).globalRttHistory =
      s.globalRttHistory :=
  ⟨lookup_addMeasurement_outrange s jid rtt now h,
   addMeasurement_global_outrange s jid rtt now h⟩

/-- Witness for C1: a fresh device fed a 6000ms sample. -/
theorem offline_sample_recorded_only_in_lastRtt_witness :
    lookupKey (addMeasurementForDevice initialState "device" 6000 7).deviceMetrics
        "device" =
      some { rttHistory := [], recentRtts := [], state := "OFFLINE"
             lastRtt := 6000, lastUpdate := 7 } ∧
    (addMeasurementForDevice initialState "device" 6000 7).globalRttHistory =
      [] := by
  have h := offline_sample_recorded_only_in_lastRtt initialState "device" 6000 7
    (by norm_num)
  simpa [devHistory, devRecent, initialState, lookupKey] using h

/-- **C2.** With at least 3 population samples and outside the sticky
Offline guard, the threshold is the population median times 0.8 and the
state is Online (the string `"An (Online)"`) exactly when the moving
average is strictly below it, else Standby; with fewer than 3 samples the
state is Calibrating.  Concretely, population `[100, 120, 140]` has median
120 and threshold 96; a 3-sample moving average of 80 classifies Online
and 110 classifies Standby. -/
theorem classification_median_threshold :
    (∀ (g : List ℕ) (m : DeviceMetrics),
        ¬(m.state = "OFFLINE" ∧ 5000 < m.lastRtt) → 3 ≤ g.length →
        (determineDeviceState g m).state =
          if movingAvgOf m < calculateGlobalMedian g * (4 / 5)
          then "An (Online)" else "Standby") ∧
    (∀ (g : List ℕ) (m : DeviceMetrics),
        ¬(m.state = "OFFLINE" ∧ 5000 < m.lastRtt) → g.length < 3 →
        (determineDeviceState g m).state = "Calibrating...") ∧
    calculateGlobalMedian [100, 120, 140] = 120 ∧
    calculateGlobalMedian [100, 120, 140] * (4 / 5) = 96 ∧
    (determineDeviceState [100, 120, 140]
      { rttHistory := [80, 80, 80], recentRtts := [80, 80, 80]
        state := "Standby", lastRtt := 80, lastUpdate := 0 }).state =
      "An (Online)" ∧
    (determineDeviceState [100, 120, 140]
      { rttHistory := [110, 110, 110], recentRtts := [110, 110, 110]
        state := "An (Online)", lastRtt := 110, lastUpdate := 0 }).state =
      "Standby" := by
  have hmed : ∀ g : List ℕ, 3 ≤ g.length →
      calculateGlobalMedian g =
        (let sorted := List.insertionSort (· ≤ ·) g
         let mid := sorted.length / 2
         if sorted.length % 2 ≠ 0 then (sorted.getD mid 0 : ℚ)
         else ((sorted.getD (mid - 1) 0 : ℚ) + (sorted.getD mid 0 : ℚ)) / 2) :=
    fun g hg => by rw [calculateGlobalMedian, if_neg (by omega)]
  refine ⟨?_, ?_, ?_, ?_, ?_, ?_⟩
  · intro g m hns hlen
    rw [hmed g hlen]
    simp only [determineDeviceState, if_neg hns, if_pos hlen]
    split <;> split <;> rfl
  · intro g m hns hlen
    have hnl : ¬3 ≤ g.length := by omega
    simp only [determineDeviceState, if_neg hns, if_neg hnl]
  · norm_num [calculateGlobalMedian, List.insertionSort, List.orderedInsert]
  · norm_num [calculateGlobalMedian, List.insertionSort, List.orderedInsert]
  · norm_num [determineDeviceState, movingAvgOf, List.insertionSort,
      List.orderedInsert,
      (by decide : ¬("Standby" = "OFFLINE"))]
  · norm_num [determineDeviceState, movingAvgOf, List.insertionSort,
      List.orderedInsert,
      (by decide : ¬("An (Online)" = "OFFLINE"))]

/-- Witness for C2: the classification rule applied at the spec's own
example inputs. -/
theorem classification_median_threshold_witness :
    (determineDeviceState [100, 120, 140]
      { rttHistory := [80, 80, 80], recentRtts := [80, 80, 80]
        state := "Standby", lastRtt := 80, lastUpdate := 0 }).state =
      (if movingAvgOf
            { rttHistory := [80, 80, 80], recentRtts := [80, 80, 80]
              state := "Standby", lastRtt := 80, lastUpdate := 0 } <
          calculateGlobalMedian [100, 120, 140] * (4 / 5)
       then "An (Online)" else "Standby") :=
  classification_median_threshold.1 [100, 120, 140]
    { rttHistory := [80, 80, 80], recentRtts := [80, 80, 80]
      state := "Standby", lastRtt := 80, lastUpdate := 0 }
    (by decide) (by decide)

/-- **C3** (code-bug evidence).  `sendProbe` registers the send timestamp
of a successful probe in `probeStartTimes`, but creates no timeout timer:
`probeTimeouts` is left untouched by every send, so a registered probe
whose acknowledgment never arrives owns no timer that could evict its
pending entry.  (The source declares `probeTimeouts` and clears entries in
`analyzeUpdate` and `stopTracking`, but no code path ever populates it.) -/
theorem sendProbe_creates_no_timeout :
    (∀ (s : TrackerState) (resultId : Option String) (now : ℕ),
        (sendProbe s resultId now).probeTimeouts = s.probeTimeouts) ∧
    (sendProbe initialState (some "P1") 0).probeStartTimes = [("P1", 0)] ∧
    (sendProbe initialState (some "P1") 0).probeTimeouts = [] := by
  refine ⟨fun s resultId now => ?_, rfl, rfl⟩
  cases resultId <;> rfl

/-- **C4.** The population median is 0 below the 3-sample floor, and
otherwise the exact middle (odd length) or the mean of the two middle
elements (even length) of a sorted snapshot, computed without disturbing
the live buffer; `median([10,20,30]) = 20` and
`median([10,20,30,40]) = 25`. -/
theorem median_of_sorted_snapshot :
    (∀ hist : List ℕ, hist.length < 3 → calculateGlobalMedian hist = 0) ∧
    (∀ hist : List ℕ, 3 ≤ hist.length →
      ∃ sorted : List ℕ, sorted.Perm hist ∧ sorted.Sorted (· ≤ ·) ∧
        calculateGlobalMedian hist = specMiddle sorted) ∧
    (∀ s : TrackerState, (calculateGlobalMedianOp s).2 = s) ∧
    calculateGlobalMedian [10, 20, 30] = 20 ∧
    calculateGlobalMedian [10, 20, 30, 40] = 25 := by
  refine ⟨?_, ?_, fun s => rfl, ?_, ?_⟩
  · intro hist h
    simp [calculateGlobalMedian, h]
  · intro hist h
    refine ⟨List.insertionSort (· ≤ ·) hist, List.perm_insertionSort _ _,
      List.sorted_insertionSort _ _, ?_⟩
    rw [calculateGlobalMedian, if_neg (by omega)]
    rfl
  · norm_num [calculateGlobalMedian, List.insertionSort, List.orderedInsert]
  · norm_num [calculateGlobalMedian, List.insertionSort, List.orderedInsert]

/-- Witness for C4: the sub-floor rule applied to the empty buffer. -/
theorem median_of_sorted_snapshot_witness :
    calculateGlobalMedian [] = 0 :=
  median_of_sorted_snapshot.1 [] (by decide)

/-- **C5.** An in-range (`rtt <= 5000`) correlated sample always forces
reclassification away from Offline: after processing it the stored state
is never `"OFFLINE"`.  Concretely, a 6000ms sample forces Offline and a
following 300ms sample moves the device out of Offline. -/
theorem inrange_sample_unsticks_offline :
    (∀ (s : TrackerState) (jid : String) (rtt now : ℕ), rtt ≤ 5000 →
        devState (addMeasurementForDevice s jid rtt now) jid ≠ "OFFLINE") ∧
    devState (addMeasurementForDevice initialState "d" 6000 0) "d" =
      "OFFLINE" ∧
    devState (addMeasurementForDevice
        (addMeasurementForDevice initialState "d" 6000 0) "d" 300 1) "d" ≠
      "OFFLINE" := by
  have main : ∀ (s : TrackerState) (jid : String) (rtt now : ℕ),
      rtt ≤ 5000 →
      devState (addMeasurementForDevice s jid rtt now) jid ≠ "OFFLINE" := by
    intro s jid rtt now h
    rw [devState, lookup_addMeasurement_inrange s jid rtt now h]
    exact determineDeviceState_state_ne_offline _ _ h
  refine ⟨main, ?_, main _ "d" 300 1 (by norm_num)⟩
  rw [devState, lookup_addMeasurement_outrange initialState "d" 6000 0
    (by norm_num)]
  rfl

/-- Witness for C5: the in-range rule applied at a concrete sample. -/
theorem inrange_sample_unsticks_offline_witness :
    devState (addMeasurementForDevice initialState "w" 100 0) "w" ≠
      "OFFLINE" :=
  inrange_sample_unsticks_offline.1 initialState "w" 100 0 (by norm_num)

/-- **C6.** Feeding any stream of in-range samples for one device, each
bounded buffer (3-slot moving average, 2000-slot device history, 2000-slot
population history) never exceeds its capacity and holds exactly the most
recently pushed samples in insertion order (the oldest are the ones
dropped). -/
theorem bounded_buffers_fifo (jid : String) (rtts : List ℕ)
    (h : ∀ r ∈ rtts, r ≤ 5000) :
    devRecent (runEvents (rtts.map fun r => TrackerEvent.measure jid r 0))
        jid =
      rtts.drop (rtts.length - 3) ∧
    devHistory (runEvents (rtts.map fun r => TrackerEvent.measure jid r 0))
        jid =
      rtts.drop (rtts.length - 2000) ∧
    (runEvents
        (rtts.map fun r => TrackerEvent.measure jid r 0)).globalRttHistory =
      rtts.drop (rtts.length - 2000) ∧
    (devRecent (runEvents (rtts.map fun r => TrackerEvent.measure jid r 0))
        jid).length ≤ 3 ∧
    (devHistory (runEvents (rtts.map fun r => TrackerEvent.measure jid r 0))
        jid).length ≤ 2000 ∧
    (runEvents
        (rtts.map fun r =>
          TrackerEvent.measure jid r 0)).globalRttHistory.length ≤ 2000 := by
  have hrun :
      runEvents (rtts.map fun r => TrackerEvent.measure jid r 0) =
        rtts.foldl (fun t r => addMeasurementForDevice t jid r 0)
          initialState := by
    rw [runEvents, List.foldl_map]
    rfl
  have hb := run_measures_buffers jid rtts initialState h
  have e1 : devRecent initialState jid = [] := rfl
  have e2 : devHistory initialState jid = [] := rfl
  have e3 : initialState.globalRttHistory = [] := rfl
  rw [e1, e2, e3] at hb
  have f3 := foldl_pushBounded 3 rtts [] (by simp)
  have f2000 := foldl_pushBounded 2000 rtts [] (by simp)
  simp only [List.nil_append, List.length_nil, Nat.zero_add] at f3 f2000
  have g1 : devRecent
      (runEvents (rtts.map fun r => TrackerEvent.measure jid r 0)) jid =
      rtts.drop (rtts.length - 3) := by rw [hrun, hb.1, f3]
  have g2 : devHistory
      (runEvents (rtts.map fun r => TrackerEvent.measure jid r 0)) jid =
      rtts.drop (rtts.length - 2000) := by rw [hrun, hb.2.1, f2000]
  have g3 : (runEvents
      (rtts.map fun r => TrackerEvent.measure jid r 0)).globalRttHistory =
      rtts.drop (rtts.length - 2000) := by rw [hrun, hb.2.2, f2000]
  refine ⟨g1, g2, g3, ?_, ?_, ?_⟩ <;>
    simp only [g1, g2, g3, List.length_drop] <;> omega

/-- Witness for C6: five in-range samples leave the 3-slot buffer holding
the last three. -/
theorem bounded_buffers_fifo_witness :
    devRecent (runEvents ([1, 2, 3, 4, 5].map fun r =>
        TrackerEvent.measure "d" r 0)) "d" =
      [1, 2, 3, 4, 5].drop ([1, 2, 3, 4, 5].length - 3) ∧
    devHistory (runEvents ([1, 2, 3, 4, 5].map fun r =>
        TrackerEvent.measure "d" r 0)) "d" =
      [1, 2, 3, 4, 5].drop ([1, 2, 3, 4, 5].length - 2000) ∧
    (runEvents ([1, 2, 3, 4, 5].map fun r =>
        TrackerEvent.measure "d" r 0)).globalRttHistory =
      [1, 2, 3, 4, 5].drop ([1, 2, 3, 4, 5].length - 2000) ∧
    (devRecent (runEvents ([1, 2, 3, 4, 5].map fun r =>
        TrackerEvent.measure "d" r 0)) "d").length ≤ 3 ∧
    (devHistory (runEvents ([1, 2, 3, 4, 5].map fun r =>
        TrackerEvent.measure "d" r 0)) "d").length ≤ 2000 ∧
    (runEvents ([1, 2, 3, 4, 5].map fun r =>
        TrackerEvent.measure "d" r 0)).globalRttHistory.length ≤ 2000 :=
  bounded_buffers_fifo "d" [1, 2, 3, 4, 5] (by decide)

/-- **C7.** After any sequence of events, the state stored for every
device record is one of exactly the four classification strings. -/
theorem device_state_always_one_of_four (es : List TrackerEvent)
    (jid : String) (m : DeviceMetrics)
    (h : lookupKey (runEvents es).deviceMetrics jid = some m) :
    m.state = "Calibrating..." ∨ m.state = "An (Online)" ∨
      m.state = "Standby" ∨ m.state = "OFFLINE" :=
  (devicesInv_runEvents es jid m h).2

/-- Witness for C7: the record created by a single out-of-range sample. -/
theorem device_state_always_one_of_four_witness :
    ({ rttHistory := [], recentRtts := [], state := "OFFLINE"
       lastRtt := 6000, lastUpdate := 0 } : DeviceMetrics).state =
        "Calibrating..." ∨
      ({ rttHistory := [], recentRtts := [], state := "OFFLINE"
         lastRtt := 6000, lastUpdate := 0 } : DeviceMetrics).state =
        "An (Online)" ∨
      ({ rttHistory := [], recentRtts := [], state := "OFFLINE"
         lastRtt := 6000, lastUpdate := 0 } : DeviceMetrics).state =
        "Standby" ∨
      ({ rttHistory := [], recentRtts := [], state := "OFFLINE"
         lastRtt := 6000, lastUpdate := 0 } : DeviceMetrics).state =
        "OFFLINE" :=
  device_state_always_one_of_four [TrackerEvent.measure "d" 6000 0] "d"
    { rttHistory := [], recentRtts := [], state := "OFFLINE"
      lastRtt := 6000, lastUpdate := 0 }
    (by decide)

/-- **C8.** A delivery acknowledgment (status 3) whose message id is
pending with send time `t0` and which arrives at `t1` yields elapsed
`t1 - t0`, removes the pending entry and its timer, and forwards the
elapsed RTT to classification; an acknowledgment with no pending entry
changes no tracker state at all. -/
theorem correlation_matched_and_unmatched :
    (∀ (s : TrackerState) (msgId fromJid : String) (t0 t1 : ℕ),
        msgId ≠ "" → fromJid ≠ "" →
        lookupKey s.probeStartTimes msgId = some t0 →
        analyzeUpdate s msgId fromJid 3 t1 =
          addMeasurementForDevice
            { s with probeTimeouts := eraseKey s.probeTimeouts msgId
                     probeStartTimes := eraseKey s.probeStartTimes msgId }
            fromJid (t1 - t0) t1) ∧
    (∀ (s : TrackerState) (msgId fromJid : String) (t0 t1 : ℕ),
        msgId ≠ "" → fromJid ≠ "" →
        (s.probeStartTimes.map Prod.fst).Nodup →
        lookupKey s.probeStartTimes msgId = some t0 →
        lookupKey (analyzeUpdate s msgId fromJid 3 t1).probeStartTimes
          msgId = none) ∧
    (∀ (s : TrackerState) (msgId fromJid : String) (status t1 : ℕ),
        lookupKey s.probeStartTimes msgId = none →
        analyzeUpdate s msgId fromJid status t1 = s) ∧
    lookupKey (analyzeUpdate (sendProbe initialState (some "P1") 0)
        "P1" "d" 3 250).deviceMetrics "d" =
      some { rttHistory := [250], recentRtts := [250]
             state := "Calibrating...", lastRtt := 250, lastUpdate := 250 } ∧
    (analyzeUpdate (sendProbe initialState (some "P1") 0)
        "P1" "d" 3 250).probeStartTimes = [] := by
  refine ⟨analyzeUpdate_match, ?_, analyzeUpdate_nomatch, by decide, by decide⟩
  intro s msgId fromJid t0 t1 hm hf hnd hp
  rw [analyzeUpdate_match s msgId fromJid t0 t1 hm hf hp,
    (addMeasurement_probes _ fromJid (t1 - t0) t1).1]
  exact lookupKey_eraseKey_self s.probeStartTimes msgId hnd

/-- Witness for C8: probe `P1` registered at `t = 0` and resolved at
`t = 250`. -/
theorem correlation_matched_and_unmatched_witness :
    analyzeUpdate (sendProbe initialState (some "P1") 0) "P1" "d" 3 250 =
      addMeasurementForDevice
        { sendProbe initialState (some "P1") 0 with
            probeTimeouts :=
              eraseKey (sendProbe initialState (some "P1") 0).probeTimeouts
                "P1"
            probeStartTimes :=
              eraseKey (sendProbe initialState (some "P1") 0).probeStartTimes
                "P1" }
        "d" (250 - 0) 250 :=
  correlation_matched_and_unmatched.1 (sendProbe initialState (some "P1") 0)
    "P1" "d" 0 250 (by decide) (by decide) (by decide)

/-- **C9.** `stopTracking` synchronously clears the tracking flag and both
probe maps: afterwards no pending-probe timeout timer exists (none can
fire), and a scheduler-loop iteration on the stopped state sends nothing
and changes nothing. -/
theorem stop_cancels_timers_and_halts_loop (s : TrackerState) :
    (stopTracking s).isTracking = false ∧
    (stopTracking s).probeTimeouts = [] ∧
    (stopTracking s).probeStartTimes = [] ∧
    (∀ msgId, lookupKey (stopTracking s).probeTimeouts msgId = none) ∧
    (∀ (resultId : Option String) (now : ℕ),
        probeLoopStep (stopTracking s) resultId now = stopTracking s) :=
  ⟨rfl, rfl, rfl, fun _ => rfl, fun _ _ => rfl⟩

/-- **C10.** Every reachable device record either holds at least one
sample in its moving-average buffer or sits behind the sticky-Offline
guard (`state = "OFFLINE"` with `lastRtt > 5000`); consequently, whenever
classification proceeds past that guard, the moving-average divisor is
non-zero. -/
theorem moving_average_denominator_nonzero (es : List TrackerEvent)
    (jid : String) (m : DeviceMetrics)
    (h : lookupKey (runEvents es).deviceMetrics jid = some m) :
    (m.recentRtts ≠ [] ∨ (m.state = "OFFLINE" ∧ 5000 < m.lastRtt)) ∧
    (¬(m.state = "OFFLINE" ∧ 5000 < m.lastRtt) →
      (m.recentRtts.length : ℚ) ≠ 0) := by
  have hi := (devicesInv_runEvents es jid m h).1
  refine ⟨hi, fun hns => ?_⟩
  rcases hi with hne | hs
  · exact Nat.cast_ne_zero.mpr
      (fun h0 => hne (List.length_eq_zero.mp h0))
  · exact absurd hs hns

/-- Witness for C10: the record created by a single in-range sample. -/
theorem moving_average_denominator_nonzero_witness :
    (([100] : List ℕ) ≠ [] ∨
        (("Calibrating..." : String) = "OFFLINE" ∧ (5000 : ℕ) < 100)) ∧
      (¬(("Calibrating..." : String) = "OFFLINE" ∧ (5000 : ℕ) < 100) →
        (((1 : ℕ) : ℚ) ≠ 0)) :=
  moving_average_denominator_nonzero [TrackerEvent.measure "d" 100 0] "d"
    { rttHistory := [100], recentRtts := [100], state := "Calibrating..."
      lastRtt := 100, lastUpdate := 0 }
    (by decide)
